import Mathlib

/-!
Shallow embedding of `src/sim7600_controller.py` (class `SIM7600Controller`).

The serial port is modelled as a scripted channel: `reads` are the successive
results of the in-waiting drain performed at the top of each monitor-loop
iteration (`""` standing for "no bytes available"), and `sends` are the
successive response strings delivered to `send_at` calls.  The filesystem is
an association list from path to the list of lines of the file.  Python
exceptions that the code can raise are reflected as `Except` errors
(`typeError` for `"OK" in None`, `indexError` for `lines[1]` on a one-line
file).  Wall-clock sleeps and timestamp formatting are abstracted by passing
the timestamp string as a parameter.  Nontermination of the monitor loop is
handled by fuel: a result of `none` means the loop did not finish within the
given fuel.
-/

set_option autoImplicit false

namespace SIM7600

/-- Python's `\s` whitespace class for `str.strip`. -/
def pySpace (c : Char) : Bool :=
  c = ' ' || c = '\t' || c = '\n' || c = '\r' || c = '\x0b' || c = '\x0c'

/-- Python `str.strip()`: drop whitespace from both ends. -/
def pyStrip (s : String) : String :=
  ⟨((s.data.dropWhile pySpace).reverse.dropWhile pySpace).reverse⟩

/-- Test `hasPre pat l` : `pat` is a prefix of `l`. -/
def hasPre : List Char → List Char → Bool
  | [], _ => true
  | _ :: _, [] => false
  | a :: as, b :: bs => (a = b) && hasPre as bs

/-- Test `hasSub pat l` : `pat` occurs as a contiguous substring of `l`. -/
def hasSub (pat : List Char) : List Char → Bool
  | [] => hasPre pat []
  | c :: rest => hasPre pat (c :: rest) || hasSub pat rest

/-- Python `sub in s` (substring containment). -/
def strContains (s sub : String) : Bool :=
  hasSub sub.data s.data

/-- Test `hasSuf pat l` : `pat` is a suffix of `l`. -/
def hasSuf (pat l : List Char) : Bool :=
  hasPre pat.reverse l.reverse

/-- Value of a list of decimal digit characters (Python `int` on the match group). -/
def digitsVal (ds : List Char) : Nat :=
  ds.foldl (fun a c => a * 10 + (c.toNat - 48)) 0

/-- Tail of the regex `\+CSQ:\s*(\d+),(\d+)` after the literal `+CSQ:`:
skip whitespace, then one-or-more digits, a comma, one-or-more digits. -/
def parseCSQtail (l : List Char) : Option (Nat × Nat) :=
  let l1 := l.dropWhile pySpace
  let d1 := l1.takeWhile Char.isDigit
  let r1 := l1.dropWhile Char.isDigit
  if d1 = [] then none
  else
    match r1 with
    | ',' :: r2 =>
        let d2 := r2.takeWhile Char.isDigit
        if d2 = [] then none else some (digitsVal d1, digitsVal d2)
    | _ => none

/-- The search `re.search` for the pattern from `get_signal`
(src/sim7600_controller.py:70): try every start position, left to right. -/
def findCSQ : List Char → Option (Nat × Nat)
  | [] => none
  | c :: rest =>
      if hasPre "+CSQ:".data (c :: rest) then
        match parseCSQtail ((c :: rest).drop 5) with
        | some v => some v
        | none => findCSQ rest
      else findCSQ rest

/-- Python exceptions the embedded code can raise. -/
inductive PyErr where
  | typeError
  | indexError
deriving DecidableEq

/-- Scripted serial channel (the open `serial.Serial` object). -/
structure Chan where
  reads : List String
  sends : List String
deriving DecidableEq

/-- State of a `SIM7600Controller` instance together with its environment:
`ser` (the serial handle, `none` = not connected), the `_call_active` flag,
the filesystem (path to file lines), the stdout lines printed so far, and the
trace of AT commands written to the channel. -/
structure SimState where
  ser : Option Chan
  call_active : Bool
  files : List (String × List String)
  printed : List String
  sent : List String
deriving DecidableEq

/-- Read a file's lines from the modelled filesystem. -/
def getFile : List (String × List String) → String → Option (List String)
  | [], _ => none
  | e :: fs, p => if e.1 = p then some e.2 else getFile fs p

/-- Model of `open(p, 'w')` followed by writes: create or truncate the file at `p` with lines `ls`. -/
def setFile : List (String × List String) → String → List String → List (String × List String)
  | [], p, ls => [(p, ls)]
  | e :: fs, p, ls => if e.1 = p then (p, ls) :: fs else e :: setFile fs p ls

/-- Model of `open(p, 'a')` plus a write of one line: create the file or append to it. -/
def appendFile : List (String × List String) → String → String → List (String × List String)
  | [], p, line => [(p, [line])]
  | e :: fs, p, line => if e.1 = p then (e.1, e.2 ++ [line]) :: fs else e :: appendFile fs p line

/-- Method `send_at` (src/sim7600_controller.py:47-59): if not connected, print
`❌ 未連接` and return `None`; otherwise write the command, drain the buffered
response and return it stripped. -/
def send_at (st : SimState) (cmd : String) : Option String × SimState :=
  match st.ser with
  | none => (none, { st with printed := st.printed ++ ["❌ 未連接"] })
  | some ch =>
      (some (pyStrip (ch.sends.headD "")),
       { st with ser := some { ch with sends := ch.sends.tail },
                 sent := st.sent ++ [cmd] })

/-- Strong-signal display string (src/sim7600_controller.py:76). -/
def fmtStrong (rssi : Nat) : String :=
  "訊號強 (" ++ toString rssi ++ "/31)"

/-- Fair-signal display string (src/sim7600_controller.py:78). -/
def fmtFair (rssi : Nat) : String :=
  "訊號一般 (" ++ toString rssi ++ "/31)"

/-- The rssi classification of `get_signal` (src/sim7600_controller.py:73-78). -/
def classifyRssi (rssi : Nat) : String :=
  if rssi = 99 then "無訊號"
  else if rssi ≥ 20 then fmtStrong rssi
  else fmtFair rssi

/-- Method `get_signal` (src/sim7600_controller.py:61-79). -/
def get_signal (st : SimState) : String × SimState :=
  match send_at st "AT+CSQ" with
  | (none, st1) => ("無法獲取訊號", st1)
  | (some r, st1) =>
      if r = "" then ("無法獲取訊號", st1)
      else if strContains r "+CSQ:" = true then
        match findCSQ r.data with
        | some (rssi, _) => (classifyRssi rssi, st1)
        | none => ("無法獲取訊號", st1)
      else ("無法獲取訊號", st1)

/-- Header block written by `_create_log_file` (src/sim7600_controller.py:136-141);
the final `"==================\n\n"` write contributes a banner line and a
blank line. -/
def header (call_type number ts : String) : List String :=
  ["=== 通話記錄 ===",
   "類型: " ++ (if call_type = "outgoing" then "打出" else "接收"),
   "號碼: " ++ number,
   "時間: " ++ ts,
   "==================",
   ""]

/-- File path chosen by `_create_log_file` (src/sim7600_controller.py:131-133). -/
def logName (call_type number ts : String) : String :=
  "call_logs/" ++ call_type ++ "_" ++ number ++ "_" ++ ts ++ ".txt"

/-- Method `_create_log_file` (src/sim7600_controller.py:129-143). -/
def create_log_file (st : SimState) (call_type number ts : String) : String × SimState :=
  let p := logName call_type number ts
  (p, { st with files := setFile st.files p (header call_type number ts) })

/-- Method `hangup` (src/sim7600_controller.py:122-127).  When not connected,
`send_at` returns `None` and `"OK" in result` raises `TypeError`. -/
def hangup (st : SimState) : Except PyErr (Bool × SimState) :=
  let st0 := { st with printed := st.printed ++ ["📴 正在結束通話..."] }
  match send_at st0 "ATH" with
  | (none, _) => Except.error PyErr.typeError
  | (some r, st1) =>
      Except.ok (strContains r "OK", { st1 with call_active := false })

/-- One iteration of the `while self._call_active` body of `_monitor_call`
(src/sim7600_controller.py:151-167): drain incidental data (printing it and
appending a timestamped line to the log when non-empty), then poll `AT+CPAS`
and clear the flag when the stripped response is non-empty and contains no
`'0'` character. -/
def monitorCycle (st : SimState) (log ts : String) : SimState :=
  let st1 :=
    match st.ser with
    | none => st
    | some ch =>
        let d := ch.reads.headD ""
        let stA := { st with ser := some { ch with reads := ch.reads.tail } }
        if d = "" then stA
        else { stA with
                 printed := stA.printed ++ ["  > " ++ pyStrip d],
                 files := appendFile stA.files log ("[" ++ ts ++ "] " ++ pyStrip d) }
  match send_at st1 "AT+CPAS" with
  | (none, st2) => st2
  | (some r, st2) =>
      if r ≠ "" ∧ strContains r "0" = false then
        { st2 with call_active := false,
                   printed := st2.printed ++ ["📴 對方已掛線"] }
      else st2

/-- The `while self._call_active` loop of `_monitor_call`, fuelled; `none`
means the loop did not exit within `fuel` iterations. -/
def monitorLoop : Nat → SimState → String → String → Option SimState
  | 0, st, _, _ => if st.call_active = true then none else some st
  | fuel + 1, st, log, ts =>
      if st.call_active = true then monitorLoop fuel (monitorCycle st log ts) log ts
      else some st

/-- Run `k` loop iterations unconditionally (used for the state reached when a
`KeyboardInterrupt` arrives at the `k`-th iteration boundary). -/
def monitorCycles : Nat → SimState → String → String → SimState
  | 0, st, _, _ => st
  | k + 1, st, log, ts => monitorCycles k (monitorCycle st log ts) log ts

/-- The `finally` block of `_monitor_call` (src/sim7600_controller.py:171-173):
`self.hangup()` then report the log file location. -/
def monitorFinally (st : SimState) (log : String) : Except PyErr SimState :=
  match hangup st with
  | Except.error e => Except.error e
  | Except.ok (_, st1) =>
      Except.ok { st1 with printed := st1.printed ++ ["✅ 通話記錄已保存: " ++ log] }

/-- Method `_monitor_call` (src/sim7600_controller.py:145-173), normal-termination
path: entry prints, the polling loop, then the `finally` block. -/
def monitor_call (fuel : Nat) (st : SimState) (log ts : String) :
    Option (Except PyErr SimState) :=
  let st0 := { st with printed := st.printed ++
      ["📝 正在記錄通話到: " ++ log, "💬 對話內容 (Ctrl+C 結束通話):"] }
  (monitorLoop fuel st0 log ts).map (fun st1 => monitorFinally st1 log)

/-- Method `_monitor_call` when a `KeyboardInterrupt` arrives at the boundary of the
`k`-th loop iteration (src/sim7600_controller.py:169-173): the interrupt
message is printed and the `finally` block still runs. -/
def monitor_call_interrupted (k : Nat) (st : SimState) (log ts : String) :
    Except PyErr SimState :=
  let st0 := { st with printed := st.printed ++
      ["📝 正在記錄通話到: " ++ log, "💬 對話內容 (Ctrl+C 結束通話):"] }
  let st1 := monitorCycles k st0 log ts
  monitorFinally { st1 with printed := st1.printed ++ ["⚠️ 用戶中斷"] } log

/-- Method `make_call` (src/sim7600_controller.py:81-103).  When not connected
`send_at` returns `None` and `"OK" in result` raises `TypeError`. -/
def make_call (fuel : Nat) (st : SimState) (number ts : String) :
    Option (Except PyErr (Bool × SimState)) :=
  let st0 := { st with printed := st.printed ++ ["📞 緊打去 " ++ number ++ "..."] }
  match send_at st0 ("ATD" ++ number ++ ";") with
  | (none, _) => some (Except.error PyErr.typeError)
  | (some r, st1) =>
      if strContains r "OK" || strContains r "CALL" then
        let st2 := { st1 with call_active := true,
                              printed := st1.printed ++ ["✅ 正在通話中... (按 Ctrl+C 結束)"] }
        let pr := create_log_file st2 "outgoing" number ts
        (monitor_call fuel pr.2 pr.1 ts).map (fun e => e.map (fun st4 => (true, st4)))
      else
        some (Except.ok (false,
          { st1 with printed := st1.printed ++ ["❌ 打出失敗: " ++ r] }))

/-- Method `answer_call` (src/sim7600_controller.py:105-120).  Note that on the
incoming path only a file path is computed; `_create_log_file` is never
called, so no header is written. -/
def answer_call (fuel : Nat) (st : SimState) (ts : String) :
    Option (Except PyErr (Bool × SimState)) :=
  let st0 := { st with printed := st.printed ++ ["📞 正在接聽..."] }
  match send_at st0 "ATA" with
  | (none, _) => some (Except.error PyErr.typeError)
  | (some r, st1) =>
      if strContains r "OK" then
        let st2 := { st1 with call_active := true,
                              printed := st1.printed ++ ["✅ 已接聽！開始對話..."] }
        let log := "call_logs/incoming_" ++ ts ++ ".txt"
        (monitor_call fuel st2 log ts).map (fun e => e.map (fun st3 => (true, st3)))
      else
        some (Except.ok (false, st1))

/-- An entry of the log directory: file name, modification time, file lines. -/
structure DirEntry where
  name : String
  mtime : Nat
  lines : List String
deriving DecidableEq

/-- Insert into a list sorted by decreasing `mtime` (stable). -/
def insertDesc (e : DirEntry) : List DirEntry → List DirEntry
  | [] => [e]
  | x :: xs => if x.mtime ≥ e.mtime then x :: insertDesc e xs else e :: x :: xs

/-- Model of `sorted(..., key=os.path.getmtime, reverse=True)`. -/
def sortDesc : List DirEntry → List DirEntry
  | [] => []
  | e :: rest => insertDesc e (sortDesc rest)

/-- The `for log in logs[:10]` body of `list_call_logs`
(src/sim7600_controller.py:184-190): print the name; if the file is
non-empty, print its first two lines — `lines[1]` raises `IndexError` on a
one-line file. -/
def listLoop : List DirEntry → Except PyErr (List String)
  | [] => Except.ok []
  | e :: rest =>
      match e.lines with
      | [] => (listLoop rest).map (fun out => ("📄 " ++ e.name) :: out)
      | [_] => Except.error PyErr.indexError
      | l0 :: l1 :: _ =>
          (listLoop rest).map (fun out =>
            ("📄 " ++ e.name) :: ("   " ++ pyStrip l0) :: ("   " ++ pyStrip l1) :: out)

/-- Method `list_call_logs` (src/sim7600_controller.py:175-190), over a modelled
directory; returns the printed lines or the raised exception. -/
def list_call_logs (dir : List DirEntry) : Except PyErr (List String) :=
  let logs := sortDesc (dir.filter (fun e => hasSuf ".txt".data e.name.data))
  if logs = [] then Except.ok ["=== 通話記錄 ===", "暫無記錄"]
  else (listLoop (logs.take 10)).map (fun out => "=== 通話記錄 ===" :: out)

/-- Projection for scripted monitor runs: the number of `AT+CPAS` polls and of
`ATH` hangup commands on the wire, when the run terminated normally. -/
def runCounts (o : Option (Except PyErr SimState)) : Option (Nat × Nat) :=
  match o with
  | some (Except.ok s) => some (s.sent.count "AT+CPAS", s.sent.count "ATH")
  | _ => none

/-- Projection for `answer_call` runs: result flag and final filesystem. -/
def ansFiles (o : Option (Except PyErr (Bool × SimState))) :
    Option (Bool × List (String × List String)) :=
  match o with
  | some (Except.ok (b, s)) => some (b, s.files)
  | _ => none

/-- Number of artifact entries listed by `list_call_logs` (lines printed with
the `📄 ` marker); 0 when the listing raised. -/
def listedCount (o : Except PyErr (List String)) : Nat :=
  match o with
  | Except.ok out => out.countP (fun l => hasPre "📄 ".data l.data)
  | Except.error _ => 0

/-- Returns `true` iff the listing completed without raising. -/
def exceptOk (o : Except PyErr (List String)) : Bool :=
  match o with
  | Except.ok _ => true
  | Except.error _ => false

/-! ### Helper lemmas -/

theorem hasPre_self_append (pat rest : List Char) : hasPre pat (pat ++ rest) = true := by
  induction pat with
  | nil => rfl
  | cons c cs ih => simp [hasPre, ih]

theorem string_data_append (a b : String) : (a ++ b).data = a.data ++ b.data := rfl

theorem getFile_appendFile (fs : List (String × List String)) (p line : String)
    (ls : List String) (h : getFile fs p = some ls) :
    getFile (appendFile fs p line) p = some (ls ++ [line]) ∧
      (appendFile fs p line).length = fs.length := by
  induction fs with
  | nil => simp [getFile] at h
  | cons e fs ih =>
      by_cases he : e.1 = p
      · simp [getFile, he] at h
        simp [appendFile, he, getFile, h]
      · simp [getFile, he] at h
        have hr := ih h
        simp [appendFile, he, getFile, hr.1, hr.2]

theorem getFile_setFile_fresh (fs : List (String × List String)) (p : String)
    (ls : List String) (h : getFile fs p = none) :
    getFile (setFile fs p ls) p = some ls ∧ (setFile fs p ls).length = fs.length + 1 := by
  induction fs with
  | nil => simp [getFile, setFile]
  | cons e fs ih =>
      by_cases he : e.1 = p
      · simp [getFile, he] at h
      · simp [getFile, he] at h
        have hr := ih h
        simp [setFile, he, getFile, hr.1, hr.2]

/-- Full characterization of one monitor-loop iteration on a connected channel. -/
theorem monitorCycle_connected (rd sd : List String) (ca : Bool)
    (fs : List (String × List String)) (pr sn : List String) (log ts : String) :
    monitorCycle ⟨some ⟨rd, sd⟩, ca, fs, pr, sn⟩ log ts =
      { ser := some ⟨rd.tail, sd.tail⟩,
        call_active := if pyStrip (sd.headD "") ≠ "" ∧
            strContains (pyStrip (sd.headD "")) "0" = false then false else ca,
        files := if rd.headD "" = "" then fs
          else appendFile fs log ("[" ++ ts ++ "] " ++ pyStrip (rd.headD "")),
        printed := (if rd.headD "" = "" then pr else pr ++ ["  > " ++ pyStrip (rd.headD "")]) ++
          (if pyStrip (sd.headD "") ≠ "" ∧
              strContains (pyStrip (sd.headD "")) "0" = false then ["📴 對方已掛線"] else []),
        sent := sn ++ ["AT+CPAS"] } := by
  cases rd with
  | nil =>
      cases sd with
      | nil =>
          by_cases hz : pyStrip ("" : String) ≠ "" ∧ strContains (pyStrip "") "0" = false <;>
            simp [monitorCycle, send_at, hz, List.headD]
      | cons r sd' =>
          by_cases hz : pyStrip r ≠ "" ∧ strContains (pyStrip r) "0" = false <;>
            simp [monitorCycle, send_at, hz, List.headD]
  | cons d rd' =>
      cases sd with
      | nil =>
          by_cases hd : d = "" <;>
            by_cases hz : pyStrip ("" : String) ≠ "" ∧ strContains (pyStrip "") "0" = false <;>
              simp [monitorCycle, send_at, hd, hz, List.headD]
      | cons r sd' =>
          by_cases hd : d = "" <;>
            by_cases hz : pyStrip r ≠ "" ∧ strContains (pyStrip r) "0" = false <;>
              simp [monitorCycle, send_at, hd, hz, List.headD]

/-- Evaluation of `hangup` on a connected channel. -/
theorem hangup_connected (rd sd : List String) (ca : Bool)
    (fs : List (String × List String)) (pr sn : List String) :
    hangup ⟨some ⟨rd, sd⟩, ca, fs, pr, sn⟩ =
      Except.ok (strContains (pyStrip (sd.headD "")) "OK",
        ⟨some ⟨rd, sd.tail⟩, false, fs, pr ++ ["📴 正在結束通話..."], sn ++ ["ATH"]⟩) := by
  simp [hangup, send_at]

/-- The `finally` block on a connected channel succeeds and only touches the
serial script, the flag, the trace and the printed lines. -/
theorem monitorFinally_connected (s : SimState) (ch : Chan) (log : String)
    (h : s.ser = some ch) :
    ∃ st', monitorFinally s log = Except.ok st' ∧
      st'.files = s.files ∧
      st'.sent = s.sent ++ ["ATH"] ∧
      st'.printed = s.printed ++ ["📴 正在結束通話...", "✅ 通話記錄已保存: " ++ log] ∧
      st'.call_active = false := by
  obtain ⟨ser, ca, fs, pr, sn⟩ := s
  obtain ⟨rd, sd⟩ := ch
  obtain rfl : ser = some ⟨rd, sd⟩ := h
  refine ⟨⟨some ⟨rd, sd.tail⟩, false, fs,
      pr ++ ["📴 正在結束通話...", "✅ 通話記錄已保存: " ++ log], sn ++ ["ATH"]⟩,
      ?_, rfl, rfl, rfl, rfl⟩
  simp [monitorFinally, hangup_connected]

/-- Any property preserved by `monitorCycle` is carried from the entry of the
monitor loop to its normal exit. -/
theorem monitorLoop_invariant (log ts : String) (P : SimState → Prop)
    (hcyc : ∀ s, P s → P (monitorCycle s log ts)) :
    ∀ fuel st st', P st → monitorLoop fuel st log ts = some st' → P st' := by
  intro fuel
  induction fuel with
  | zero =>
      intro st st' hP hrun
      by_cases h : st.call_active = true
      · simp [monitorLoop, h] at hrun
      · simp [monitorLoop, h] at hrun
        exact hrun ▸ hP
  | succ n ih =>
      intro st st' hP hrun
      by_cases h : st.call_active = true
      · exact ih _ _ (hcyc st hP) (by simpa [monitorLoop, h] using hrun)
      · simp [monitorLoop, h] at hrun
        exact hrun ▸ hP

/-- Any property preserved by `monitorCycle` holds after `k` unconditional
iterations (the interrupted path). -/
theorem monitorCycles_invariant (log ts : String) (P : SimState → Prop)
    (hcyc : ∀ s, P s → P (monitorCycle s log ts)) :
    ∀ k st, P st → P (monitorCycles k st log ts) := by
  intro k
  induction k with
  | zero => intro st hP; exact hP
  | succ n ih => intro st hP; exact ih _ (hcyc st hP)

/-- A monitor cycle keeps the channel open and issues no `ATH`. -/
theorem monitorCycle_ser_count (log ts : String) (s : SimState)
    (h : ∃ ch, s.ser = some ch) :
    (∃ ch', (monitorCycle s log ts).ser = some ch') ∧
      (monitorCycle s log ts).sent.count "ATH" = s.sent.count "ATH" := by
  obtain ⟨ch, hch⟩ := h
  obtain ⟨ser, ca, fs, pr, sn⟩ := s
  obtain ⟨rd, sd⟩ := ch
  obtain rfl : ser = some ⟨rd, sd⟩ := hch
  rw [monitorCycle_connected]
  refine ⟨⟨_, rfl⟩, ?_⟩
  simp [List.count_append, List.count_singleton]

/-! ### Claim C1 -/

/-- C1: in every polling cycle of the monitor loop while the active-call flag
is set: if the stripped `AT+CPAS` response is non-empty and contains no `'0'`
character, the flag is cleared and the loop exits; if the response is empty
(or absent) or contains a `'0'`, the call stays active and the loop proceeds
to the next cycle. -/
theorem monitor_poll_hangup_detection (st : SimState) (ch : Chan) (log ts : String) (m : Nat)
    (hser : st.ser = some ch) (hact : st.call_active = true) :
    (pyStrip (ch.sends.headD "") ≠ "" ∧ strContains (pyStrip (ch.sends.headD "")) "0" = false →
        (monitorCycle st log ts).call_active = false ∧
        monitorLoop (m + 2) st log ts = some (monitorCycle st log ts)) ∧
    (pyStrip (ch.sends.headD "") = "" ∨ strContains (pyStrip (ch.sends.headD "")) "0" = true →
        (monitorCycle st log ts).call_active = true ∧
        monitorLoop (m + 2) st log ts = monitorLoop (m + 1) (monitorCycle st log ts) log ts) := by
  obtain ⟨ser, ca, fs, pr, sn⟩ := st
  obtain ⟨rd, sd⟩ := ch
  obtain rfl : ser = some ⟨rd, sd⟩ := hser
  obtain rfl : ca = true := hact
  have hstep : monitorLoop (m + 2) ⟨some ⟨rd, sd⟩, true, fs, pr, sn⟩ log ts =
      monitorLoop (m + 1) (monitorCycle ⟨some ⟨rd, sd⟩, true, fs, pr, sn⟩ log ts) log ts := by
    show monitorLoop (m + 1 + 1) _ _ _ = _
    simp [monitorLoop]
  constructor
  · intro hcond
    have hca : (monitorCycle ⟨some ⟨rd, sd⟩, true, fs, pr, sn⟩ log ts).call_active = false := by
      rw [monitorCycle_connected]
      simp only
      rw [if_pos hcond]
    refine ⟨hca, ?_⟩
    rw [hstep, monitorLoop, if_neg]
    simp [hca]
  · intro hcond
    have hncond : ¬(pyStrip (sd.headD "") ≠ "" ∧
        strContains (pyStrip (sd.headD "")) "0" = false) := by
      rcases hcond with h | h
      · intro hc; exact hc.1 h
      · intro hc; rw [h] at hc; exact absurd hc.2 (by simp)
    have hca : (monitorCycle ⟨some ⟨rd, sd⟩, true, fs, pr, sn⟩ log ts).call_active = true := by
      rw [monitorCycle_connected]
      simp only
      rw [if_neg hncond]
    exact ⟨hca, hstep⟩

/-- C1 witness: with the scripted poll response `"+CPAS: 4"` (non-empty, no
`'0'`) the cycle clears the flag and the loop exits. -/
def stW1 : SimState := ⟨some ⟨[], ["+CPAS: 4"]⟩, true, [], [], []⟩

theorem monitor_poll_hangup_detection_witness :
    (monitorCycle stW1 "L" "T").call_active = false ∧
      monitorLoop 2 stW1 "L" "T" = some (monitorCycle stW1 "L" "T") :=
  (monitor_poll_hangup_detection stW1 ⟨[], ["+CPAS: 4"]⟩ "L" "T" 0 rfl rfl).1 (by decide)

/-! ### Claim C2 -/

/-- Scripted channel for the monitor-loop test: `AT+CPAS` answered `"0"`
three times, then `"4"` (no `'0'`), then `"OK"` for the final `ATH`. -/
def stC2 : SimState := ⟨some ⟨[], ["0", "0", "0", "4", "OK"]⟩, true, [], [], []⟩

/-- C2 counterexample: on the scripted channel (three `"0"` polls, then one
response without `'0'`) the monitor loop performs 4 drain-and-poll cycles
(4 `AT+CPAS` commands on the wire), not 3; `ATH` is issued exactly once. -/
theorem monitor_scripted_cycle_count_counterexample :
    runCounts (monitor_call 10 stC2 "L" "T") = some (4, 1) ∧
      runCounts (monitor_call 10 stC2 "L" "T") ≠ some (3, 1) := by
  exact ⟨rfl, by decide⟩

/-- C2 amended: the loop performs exactly 4 drain-and-poll cycles — the first
three observe `"0"` and keep the call active, the fourth observes the
`'0'`-free response and clears the flag — and `Hangup()` (one `ATH`) is
invoked exactly once at loop exit. -/
theorem monitor_scripted_cycle_count :
    runCounts (monitor_call 10 stC2 "L" "T") = some (4, 1) ∧
      (monitorCycles 3 stC2 "L" "T").call_active = true ∧
      (monitorCycles 4 stC2 "L" "T").call_active = false :=
  ⟨rfl, rfl, rfl⟩

/-! ### Claim C3 -/

/-- A controller that never connected: `self.ser` is `None`. -/
def stDisc : SimState := ⟨none, false, [], [], []⟩

/-- C3 (code bug): with no open channel, `send_at` itself reports failure and
returns `None`, and `get_signal` degrades to its fallback string — but
`make_call`, `answer_call` and `hangup` then evaluate `"OK" in None`, which
raises an uncaught `TypeError` instead of completing with a reported
failure. -/
theorem unconnected_ops_raise :
    (send_at stDisc "AT").1 = none ∧
    (get_signal stDisc).1 = "無法獲取訊號" ∧
    make_call 5 stDisc "123" "T" = some (Except.error PyErr.typeError) ∧
    answer_call 5 stDisc "T" = some (Except.error PyErr.typeError) ∧
    hangup stDisc = Except.error PyErr.typeError :=
  ⟨rfl, rfl, rfl, rfl, rfl⟩

/-! ### Claim C4 -/

/-- With no incidental bytes buffered, a monitor cycle leaves the filesystem
untouched and the read script stays empty. -/
theorem monitorCycle_pres_nilreads (log ts : String) (F : List (String × List String))
    (s : SimState) (h : (∃ c, s.ser = some c ∧ c.reads = []) ∧ s.files = F) :
    (∃ c', (monitorCycle s log ts).ser = some c' ∧ c'.reads = []) ∧
      (monitorCycle s log ts).files = F := by
  obtain ⟨⟨c, hc, hrd⟩, hf⟩ := h
  obtain ⟨ser, ca, fs, pr, sn⟩ := s
  obtain ⟨rd, sd⟩ := c
  obtain rfl : ser = some ⟨rd, sd⟩ := hc
  obtain rfl : rd = [] := hrd
  obtain rfl : fs = F := hf
  rw [monitorCycle_connected]
  exact ⟨⟨_, rfl, rfl⟩, by simp [List.headD]⟩

/-- A terminating `_monitor_call` run on a connected channel with an empty
read script never touches the filesystem. -/
theorem monitor_call_files_nilreads (fuel : Nat) (s : SimState) (ch : Chan) (log ts : String)
    (hser : s.ser = some ch) (hrd : ch.reads = []) :
    monitor_call fuel s log ts = none ∨
      ∃ st', monitor_call fuel s log ts = some (Except.ok st') ∧ st'.files = s.files := by
  have hmc : monitor_call fuel s log ts =
      (monitorLoop fuel { s with printed := s.printed ++
          ["📝 正在記錄通話到: " ++ log, "💬 對話內容 (Ctrl+C 結束通話):"] } log ts).map
        (fun st1 => monitorFinally st1 log) := rfl
  rw [hmc]
  cases hml : monitorLoop fuel { s with printed := s.printed ++
      ["📝 正在記錄通話到: " ++ log, "💬 對話內容 (Ctrl+C 結束通話):"] } log ts with
  | none => left; rfl
  | some st3 =>
      right
      have hP := monitorLoop_invariant log ts
        (fun x => (∃ c, x.ser = some c ∧ c.reads = []) ∧ x.files = s.files)
        (fun x hx => monitorCycle_pres_nilreads log ts s.files x hx)
        fuel { s with printed := s.printed ++
          ["📝 正在記錄通話到: " ++ log, "💬 對話內容 (Ctrl+C 結束通話):"] } st3
        ⟨⟨ch, hser, hrd⟩, rfl⟩ hml
      obtain ⟨⟨c3, hc3, -⟩, hf3⟩ := hP
      obtain ⟨st4, hfin, hfiles4, -, -, -⟩ := monitorFinally_connected st3 c3 log hc3
      exact ⟨st4, by simp [hfin], by rw [hfiles4, hf3]⟩

/-- C4 amended: when `ATA` is answered affirmatively, `answer_call` sets the
active-call flag and enters the monitoring loop on the path
`incoming_<timestamp>.txt`, but it never calls `_create_log_file`: no header
is written, and with no incidental data drained no log artifact is created at
all — the filesystem is unchanged over the whole call. -/
theorem answer_call_no_header (st : SimState) (ch : Chan) (ts : String)
    (hser : st.ser = some ch) (hreads : ch.reads = [])
    (hok : strContains (pyStrip (ch.sends.headD "")) "OK" = true) :
    ∀ fuel, answer_call fuel st ts = none ∨
      ∃ st', answer_call fuel st ts = some (Except.ok (true, st')) ∧ st'.files = st.files := by
  intro fuel
  obtain ⟨ser, ca, fs, pr, sn⟩ := st
  obtain ⟨rd, sd⟩ := ch
  obtain rfl : ser = some ⟨rd, sd⟩ := hser
  obtain rfl : rd = [] := hreads
  cases sd with
  | nil => exact absurd hok (by decide)
  | cons r sd' =>
      have hok' : strContains (pyStrip r) "OK" = true := hok
      have hunf : answer_call fuel ⟨some ⟨[], r :: sd'⟩, ca, fs, pr, sn⟩ ts =
          (monitor_call fuel ⟨some ⟨[], sd'⟩, true, fs,
              pr ++ ["📞 正在接聽...", "✅ 已接聽！開始對話..."], sn ++ ["ATA"]⟩
            ("call_logs/incoming_" ++ ts ++ ".txt") ts).map
            (fun e => e.map fun st3 => (true, st3)) := by
        simp [answer_call, send_at, hok']
      rcases monitor_call_files_nilreads fuel
          ⟨some ⟨[], sd'⟩, true, fs,
            pr ++ ["📞 正在接聽...", "✅ 已接聽！開始對話..."], sn ++ ["ATA"]⟩
          ⟨[], sd'⟩ ("call_logs/incoming_" ++ ts ++ ".txt") ts rfl rfl with
        hnone | ⟨st', hsome, hfiles⟩
      · left; rw [hunf, hnone]; rfl
      · right; exact ⟨st', by rw [hunf, hsome]; rfl, hfiles⟩

/-- Scripted channel for the incoming-call run: `ATA` → `"OK"`, first
`AT+CPAS` poll → `"4"` (call ends), `ATH` → `"OK"`. -/
def stC4 : SimState := ⟨some ⟨[], ["OK", "4", "OK"]⟩, false, [], [], []⟩

/-- C4 counterexample: the `ATA` response is affirmative and the call
completes, yet the final filesystem is empty — no log artifact was opened
and no five-line header was written before (or during) the monitoring
loop. -/
theorem answer_no_header_counterexample :
    strContains (pyStrip "OK") "OK" = true ∧
      ansFiles (answer_call 5 stC4 "TS") = some (true, []) :=
  ⟨rfl, rfl⟩

theorem answer_call_no_header_witness :
    answer_call 5 stC4 "TS" = none ∨
      ∃ st', answer_call 5 stC4 "TS" = some (Except.ok (true, st')) ∧
        st'.files = stC4.files :=
  answer_call_no_header stC4 ⟨[], ["OK", "4", "OK"]⟩ "TS" rfl rfl (by decide) 5

/-! ### Claim C5 -/

/-- C5: a dial whose response contains neither `"OK"` nor `"CALL"` returns
`False`, leaves the filesystem and the active-call flag unchanged, and only
reports the rejection on the observer stream. -/
theorem make_call_rejected (st : SimState) (ch : Chan) (number ts : String) (fuel : Nat)
    (hser : st.ser = some ch)
    (hok : strContains (pyStrip (ch.sends.headD "")) "OK" = false)
    (hcall : strContains (pyStrip (ch.sends.headD "")) "CALL" = false) :
    ∃ st', make_call fuel st number ts = some (Except.ok (false, st')) ∧
      st'.files = st.files ∧ st'.call_active = st.call_active ∧
      st'.printed = st.printed ++
        ["📞 緊打去 " ++ number ++ "...", "❌ 打出失敗: " ++ pyStrip (ch.sends.headD "")] := by
  obtain ⟨ser, ca, fs, pr, sn⟩ := st
  obtain ⟨rd, sd⟩ := ch
  obtain rfl : ser = some ⟨rd, sd⟩ := hser
  cases sd with
  | nil =>
      have hok' : strContains (pyStrip "") "OK" = false := hok
      have hcall' : strContains (pyStrip "") "CALL" = false := hcall
      refine ⟨⟨some ⟨rd, []⟩, ca, fs,
          pr ++ ["📞 緊打去 " ++ number ++ "...", "❌ 打出失敗: " ++ pyStrip ""],
          sn ++ ["ATD" ++ number ++ ";"]⟩, ?_, rfl, rfl, rfl⟩
      simp [make_call, send_at, hok', hcall']
  | cons r sd' =>
      have hok' : strContains (pyStrip r) "OK" = false := hok
      have hcall' : strContains (pyStrip r) "CALL" = false := hcall
      refine ⟨⟨some ⟨rd, sd'⟩, ca, fs,
          pr ++ ["📞 緊打去 " ++ number ++ "...", "❌ 打出失敗: " ++ pyStrip r],
          sn ++ ["ATD" ++ number ++ ";"]⟩, ?_, rfl, rfl, rfl⟩
      simp [make_call, send_at, hok', hcall']

def stW5 : SimState := ⟨some ⟨[], ["ERROR"]⟩, false, [], [], []⟩

theorem make_call_rejected_witness :
    ∃ st', make_call 3 stW5 "123" "T" = some (Except.ok (false, st')) ∧
      st'.files = stW5.files ∧ st'.call_active = stW5.call_active ∧
      st'.printed = stW5.printed ++
        ["📞 緊打去 " ++ "123" ++ "...",
         "❌ 打出失敗: " ++ pyStrip ((Chan.mk [] ["ERROR"]).sends.headD "")] :=
  make_call_rejected stW5 ⟨[], ["ERROR"]⟩ "123" "T" 3 rfl (by decide) (by decide)

/-! ### Claim C6 -/

/-- If the regex search succeeds then `"+CSQ:"` occurs in the text. -/
theorem findCSQ_hasSub (l : List Char) (v : Nat × Nat) (h : findCSQ l = some v) :
    hasSub "+CSQ:".data l = true := by
  induction l with
  | nil => simp [findCSQ] at h
  | cons c rest ih =>
      rw [findCSQ] at h
      by_cases hp : hasPre "+CSQ:".data (c :: rest) = true
      · rw [if_pos hp] at h
        cases hpt : parseCSQtail ((c :: rest).drop 5) with
        | some w => simp [hasSub, hp]
        | none =>
            rw [hpt] at h
            simp only at h
            simp [hasSub, ih h]
      · rw [if_neg hp] at h
        simp [hasSub, ih h]

/-- C6 amended: when the `AT+CSQ` response matches `\+CSQ:\s*(\d+),(\d+)`,
the classification of the parsed rssi is: 99 → "no signal", any value ≥ 20
(with no upper bound enforced) → "strong", any value < 20 → "fair"; the
"unable to read signal" fallback is produced exactly when no match is
found. -/
theorem get_signal_classification (st : SimState) (ch : Chan) (rssi ber : Nat)
    (hser : st.ser = some ch) :
    (findCSQ (pyStrip (ch.sends.headD "")).data = some (rssi, ber) →
        (rssi = 99 → (get_signal st).1 = "無訊號") ∧
        (rssi ≠ 99 → 20 ≤ rssi → (get_signal st).1 = fmtStrong rssi) ∧
        (rssi < 20 → (get_signal st).1 = fmtFair rssi)) ∧
    (findCSQ (pyStrip (ch.sends.headD "")).data = none →
        (get_signal st).1 = "無法獲取訊號") := by
  obtain ⟨ser, ca, fs, pr, sn⟩ := st
  obtain ⟨rd, sd⟩ := ch
  obtain rfl : ser = some ⟨rd, sd⟩ := hser
  cases sd with
  | nil =>
      constructor
      · intro hparse
        exact Option.noConfusion hparse
      · intro _
        rfl
  | cons resp sd' =>
      constructor
      · intro hparse
        have hparse' : findCSQ (pyStrip resp).data = some (rssi, ber) := hparse
        have hne : ¬pyStrip resp = "" := by
          intro he
          rw [he] at hparse'
          exact Option.noConfusion hparse'
        have hsub : strContains (pyStrip resp) "+CSQ:" = true :=
          findCSQ_hasSub _ _ hparse'
        have hg : (get_signal ⟨some ⟨rd, resp :: sd'⟩, ca, fs, pr, sn⟩).1 =
            classifyRssi rssi := by
          simp [get_signal, send_at, hne, hsub, hparse']
        refine ⟨?_, ?_, ?_⟩
        · intro h99
          rw [hg]
          simp [classifyRssi, h99]
        · intro hn99 h20
          rw [hg]
          simp [classifyRssi, hn99, h20]
        · intro h20
          rw [hg]
          have hn99 : ¬rssi = 99 := by omega
          have hn20 : ¬rssi ≥ 20 := by omega
          simp [classifyRssi, hn99, hn20]
      · intro hparse
        have hparse' : findCSQ (pyStrip resp).data = none := hparse
        by_cases he : pyStrip resp = ""
        · simp [get_signal, send_at, he]
        · by_cases hsub : strContains (pyStrip resp) "+CSQ:" = true
          · simp [get_signal, send_at, he, hsub, hparse']
          · simp [get_signal, send_at, he, hsub]

/-- Scripted `AT+CSQ` response with an out-of-range rssi of 50. -/
def stC6 : SimState := ⟨some ⟨[], ["+CSQ: 50,0"]⟩, false, [], [], []⟩

/-- C6 counterexample: rssi = 50 lies outside `[0,31] ∪ {99}`, yet the
response is not treated as malformed — `get_signal` classifies it as strong
instead of producing the fallback string. -/
theorem get_signal_out_of_range_counterexample :
    (get_signal stC6).1 = "訊號強 (50/31)" ∧ (get_signal stC6).1 ≠ "無法獲取訊號" :=
  ⟨rfl, by decide⟩

def stW6 : SimState := ⟨some ⟨[], ["+CSQ: 15,2"]⟩, false, [], [], []⟩

theorem get_signal_classification_witness :
    findCSQ (pyStrip ((Chan.mk [] ["+CSQ: 15,2"]).sends.headD "")).data = some (15, 2) ∧
      (get_signal stW6).1 = fmtFair 15 :=
  ⟨by decide,
   ((get_signal_classification stW6 ⟨[], ["+CSQ: 15,2"]⟩ 15 2 rfl).1 (by decide)).2.2
     (by decide)⟩

/-! ### Claim C7 -/

/-- A monitor cycle only ever appends to the log file: an existing log keeps
its header as a prefix and the number of files never changes. -/
theorem monitorCycle_pres_log (log ts : String) (hdr : List String) (L : Nat) (s : SimState)
    (h : (∃ c, s.ser = some c) ∧
      (∃ extra, getFile s.files log = some (hdr ++ extra)) ∧ s.files.length = L) :
    (∃ c, (monitorCycle s log ts).ser = some c) ∧
      (∃ extra, getFile (monitorCycle s log ts).files log = some (hdr ++ extra)) ∧
      (monitorCycle s log ts).files.length = L := by
  obtain ⟨⟨c, hc⟩, ⟨extra, hget⟩, hlen⟩ := h
  obtain ⟨ser, ca, fs, pr, sn⟩ := s
  obtain ⟨rd, sd⟩ := c
  obtain rfl : ser = some ⟨rd, sd⟩ := hc
  rw [monitorCycle_connected]
  refine ⟨⟨_, rfl⟩, ?_, ?_⟩
  · by_cases hd : rd.headD "" = ""
    · exact ⟨extra, by rw [if_pos hd]; exact hget⟩
    · refine ⟨extra ++ ["[" ++ ts ++ "] " ++ pyStrip (rd.headD "")], ?_⟩
      rw [if_neg hd,
        (getFile_appendFile fs log ("[" ++ ts ++ "] " ++ pyStrip (rd.headD "")) _ hget).1,
        List.append_assoc]
  · by_cases hd : rd.headD "" = ""
    · rw [if_pos hd]; exact hlen
    · rw [if_neg hd,
        (getFile_appendFile fs log ("[" ++ ts ++ "] " ++ pyStrip (rd.headD "")) _ hget).2]
      exact hlen

/-- A terminating `_monitor_call` run keeps the header prefix of the log
artifact and the file count. -/
theorem monitor_call_log_preserved (fuel : Nat) (s : SimState) (ch : Chan) (log ts : String)
    (hdr : List String) (L : Nat) (hser : s.ser = some ch)
    (hget : ∃ extra, getFile s.files log = some (hdr ++ extra))
    (hlen : s.files.length = L) :
    monitor_call fuel s log ts = none ∨
      ∃ st' extra, monitor_call fuel s log ts = some (Except.ok st') ∧
        getFile st'.files log = some (hdr ++ extra) ∧ st'.files.length = L := by
  have hmc : monitor_call fuel s log ts =
      (monitorLoop fuel { s with printed := s.printed ++
          ["📝 正在記錄通話到: " ++ log, "💬 對話內容 (Ctrl+C 結束通話):"] } log ts).map
        (fun st1 => monitorFinally st1 log) := rfl
  rw [hmc]
  cases hml : monitorLoop fuel { s with printed := s.printed ++
      ["📝 正在記錄通話到: " ++ log, "💬 對話內容 (Ctrl+C 結束通話):"] } log ts with
  | none => left; rfl
  | some st3 =>
      right
      have hP := monitorLoop_invariant log ts
        (fun x => (∃ c, x.ser = some c) ∧
          (∃ extra, getFile x.files log = some (hdr ++ extra)) ∧ x.files.length = L)
        (monitorCycle_pres_log log ts hdr L)
        fuel { s with printed := s.printed ++
          ["📝 正在記錄通話到: " ++ log, "💬 對話內容 (Ctrl+C 結束通話):"] } st3
        ⟨⟨ch, hser⟩, hget, hlen⟩ hml
      obtain ⟨⟨c3, hc3⟩, ⟨extra, hx⟩, hlen3⟩ := hP
      obtain ⟨st4, hfin, hfiles4, -, -, -⟩ := monitorFinally_connected st3 c3 log hc3
      exact ⟨st4, extra, by simp [hfin], by rw [hfiles4]; exact hx,
        by rw [hfiles4]; exact hlen3⟩

/-- C7: an affirmative dial creates exactly one new log artifact (file count
goes up by one and no other file is created during the call), and in that
artifact the header's 2nd line is the literal outgoing-direction label and
its 3rd line carries the dialed number. -/
theorem make_call_success_creates_log (st : SimState) (ch : Chan) (number ts : String)
    (hser : st.ser = some ch)
    (haff : strContains (pyStrip (ch.sends.headD "")) "OK" = true ∨
            strContains (pyStrip (ch.sends.headD "")) "CALL" = true)
    (hfresh : getFile st.files (logName "outgoing" number ts) = none) :
    ∀ fuel, make_call fuel st number ts = none ∨
      ∃ st' ls, make_call fuel st number ts = some (Except.ok (true, st')) ∧
        st'.files.length = st.files.length + 1 ∧
        getFile st'.files (logName "outgoing" number ts) = some ls ∧
        ls[1]? = some "類型: 打出" ∧
        ls[2]? = some ("號碼: " ++ number) := by
  intro fuel
  obtain ⟨ser, ca, fs, pr, sn⟩ := st
  obtain ⟨rd, sd⟩ := ch
  obtain rfl : ser = some ⟨rd, sd⟩ := hser
  cases sd with
  | nil =>
      rcases haff with h | h
      · exact absurd (show strContains (pyStrip "") "OK" = true from h) (by decide)
      · exact absurd (show strContains (pyStrip "") "CALL" = true from h) (by decide)
  | cons resp sd' =>
      have haff' : (strContains (pyStrip resp) "OK" ||
          strContains (pyStrip resp) "CALL") = true := by
        rcases haff with h | h
        · have h' : strContains (pyStrip resp) "OK" = true := h
          simp [h']
        · have h' : strContains (pyStrip resp) "CALL" = true := h
          simp [h']
      have hfresh' : getFile fs (logName "outgoing" number ts) = none := hfresh
      have hset := getFile_setFile_fresh fs (logName "outgoing" number ts)
        (header "outgoing" number ts) hfresh'
      have hunf : make_call fuel ⟨some ⟨rd, resp :: sd'⟩, ca, fs, pr, sn⟩ number ts =
          (monitor_call fuel
            ⟨some ⟨rd, sd'⟩, true,
              setFile fs (logName "outgoing" number ts) (header "outgoing" number ts),
              pr ++ ["📞 緊打去 " ++ number ++ "...", "✅ 正在通話中... (按 Ctrl+C 結束)"],
              sn ++ ["ATD" ++ number ++ ";"]⟩
            (logName "outgoing" number ts) ts).map
            (fun e => e.map fun st4 => (true, st4)) := by
        simp [make_call, send_at, haff', create_log_file]
      rcases monitor_call_log_preserved fuel
          ⟨some ⟨rd, sd'⟩, true,
            setFile fs (logName "outgoing" number ts) (header "outgoing" number ts),
            pr ++ ["📞 緊打去 " ++ number ++ "...", "✅ 正在通話中... (按 Ctrl+C 結束)"],
            sn ++ ["ATD" ++ number ++ ";"]⟩
          ⟨rd, sd'⟩ (logName "outgoing" number ts) ts
          (header "outgoing" number ts) (fs.length + 1) rfl
          ⟨[], by rw [List.append_nil]; exact hset.1⟩ hset.2 with
        hnone | ⟨st', extra, hsome, hx, hlen'⟩
      · left; rw [hunf, hnone]; rfl
      · right
        refine ⟨st', header "outgoing" number ts ++ extra,
          by rw [hunf, hsome]; rfl, hlen', hx, ?_, ?_⟩
        · rw [List.getElem?_append_left (by simp [header])]
          rfl
        · rw [List.getElem?_append_left (by simp [header])]
          rfl

def stW7 : SimState := ⟨some ⟨[], ["OK", "4", "OK"]⟩, false, [], [], []⟩

theorem make_call_success_creates_log_witness :
    make_call 5 stW7 "123" "T" = none ∨
      ∃ st' ls, make_call 5 stW7 "123" "T" = some (Except.ok (true, st')) ∧
        st'.files.length = stW7.files.length + 1 ∧
        getFile st'.files (logName "outgoing" "123" "T") = some ls ∧
        ls[1]? = some "類型: 打出" ∧
        ls[2]? = some ("號碼: " ++ "123") :=
  make_call_success_creates_log stW7 ⟨[], ["OK", "4", "OK"]⟩ "123" "T" rfl
    (Or.inl (by decide)) rfl 5

/-! ### Claim C8 -/

/-- C8: whenever the monitor loop exits — normally (hang-up detected or the
flag already clear) or through an external interruption at any iteration
boundary — exactly one further `ATH` (one `Hangup()` call) is put on the
wire and the last line reported to the observer stream is the log artifact's
location. -/
theorem monitor_exit_hangup_report (st : SimState) (ch : Chan) (log ts : String)
    (hser : st.ser = some ch) :
    (∀ fuel, monitor_call fuel st log ts = none ∨
        ∃ st', monitor_call fuel st log ts = some (Except.ok st') ∧
          st'.sent.count "ATH" = st.sent.count "ATH" + 1 ∧
          st'.printed.getLast? = some ("✅ 通話記錄已保存: " ++ log)) ∧
    (∀ k, ∃ st', monitor_call_interrupted k st log ts = Except.ok st' ∧
        st'.sent.count "ATH" = st.sent.count "ATH" + 1 ∧
        st'.printed.getLast? = some ("✅ 通話記錄已保存: " ++ log)) := by
  have hone : (["ATH"] : List String).count "ATH" = 1 := by decide
  have pres : ∀ x, ((∃ c, x.ser = some c) ∧ x.sent.count "ATH" = st.sent.count "ATH") →
      (∃ c, (monitorCycle x log ts).ser = some c) ∧
        (monitorCycle x log ts).sent.count "ATH" = st.sent.count "ATH" := by
    intro x hx
    have h2 := monitorCycle_ser_count log ts x hx.1
    exact ⟨h2.1, by rw [h2.2, hx.2]⟩
  constructor
  · intro fuel
    have hmc : monitor_call fuel st log ts =
        (monitorLoop fuel { st with printed := st.printed ++
            ["📝 正在記錄通話到: " ++ log, "💬 對話內容 (Ctrl+C 結束通話):"] } log ts).map
          (fun st1 => monitorFinally st1 log) := rfl
    rw [hmc]
    cases hml : monitorLoop fuel { st with printed := st.printed ++
        ["📝 正在記錄通話到: " ++ log, "💬 對話內容 (Ctrl+C 結束通話):"] } log ts with
    | none => left; rfl
    | some st3 =>
        right
        have hP := monitorLoop_invariant log ts
          (fun x => (∃ c, x.ser = some c) ∧ x.sent.count "ATH" = st.sent.count "ATH")
          pres fuel { st with printed := st.printed ++
            ["📝 正在記錄通話到: " ++ log, "💬 對話內容 (Ctrl+C 結束通話):"] } st3
          ⟨⟨ch, hser⟩, rfl⟩ hml
        obtain ⟨⟨c3, hc3⟩, hcount3⟩ := hP
        obtain ⟨st4, hfin, -, hsent4, hpr4, -⟩ := monitorFinally_connected st3 c3 log hc3
        refine ⟨st4, by simp [hfin], ?_, ?_⟩
        · rw [hsent4, List.count_append, hcount3, hone]
        · rw [hpr4, show st3.printed ++ ["📴 正在結束通話...", "✅ 通話記錄已保存: " ++ log] =
            (st3.printed ++ ["📴 正在結束通話..."]) ++ ["✅ 通話記錄已保存: " ++ log] by simp,
            List.getLast?_concat]
  · intro k
    have hP := monitorCycles_invariant log ts
      (fun x => (∃ c, x.ser = some c) ∧ x.sent.count "ATH" = st.sent.count "ATH")
      pres k { st with printed := st.printed ++
        ["📝 正在記錄通話到: " ++ log, "💬 對話內容 (Ctrl+C 結束通話):"] }
      ⟨⟨ch, hser⟩, rfl⟩
    obtain ⟨⟨c3, hc3⟩, hcount3⟩ := hP
    have hc3' : ({ monitorCycles k { st with printed := st.printed ++
        ["📝 正在記錄通話到: " ++ log, "💬 對話內容 (Ctrl+C 結束通話):"] } log ts with
          printed := (monitorCycles k { st with printed := st.printed ++
            ["📝 正在記錄通話到: " ++ log, "💬 對話內容 (Ctrl+C 結束通話):"] } log ts).printed ++
            ["⚠️ 用戶中斷"] } : SimState).ser = some c3 := hc3
    obtain ⟨st4, hfin, -, hsent4, hpr4, -⟩ := monitorFinally_connected _ c3 log hc3'
    refine ⟨st4, hfin, ?_, ?_⟩
    · rw [hsent4, List.count_append]
      have : ({ monitorCycles k { st with printed := st.printed ++
          ["📝 正在記錄通話到: " ++ log, "💬 對話內容 (Ctrl+C 結束通話):"] } log ts with
            printed := (monitorCycles k { st with printed := st.printed ++
              ["📝 正在記錄通話到: " ++ log, "💬 對話內容 (Ctrl+C 結束通話):"] } log ts).printed ++
              ["⚠️ 用戶中斷"] } : SimState).sent.count "ATH" = st.sent.count "ATH" := hcount3
      rw [this, hone]
    · rw [hpr4]
      rw [show ∀ (l : List String) (a b : String), l ++ [a, b] = (l ++ [a]) ++ [b] from
        fun l a b => by simp]
      rw [List.getLast?_concat]

def stW8 : SimState := ⟨some ⟨[], ["4", "OK"]⟩, true, [], [], []⟩

theorem monitor_exit_hangup_report_witness :
    (monitor_call 3 stW8 "L" "T" = none ∨
      ∃ st', monitor_call 3 stW8 "L" "T" = some (Except.ok st') ∧
        st'.sent.count "ATH" = stW8.sent.count "ATH" + 1 ∧
        st'.printed.getLast? = some ("✅ 通話記錄已保存: " ++ "L")) ∧
    (∃ st', monitor_call_interrupted 1 stW8 "L" "T" = Except.ok st' ∧
        st'.sent.count "ATH" = stW8.sent.count "ATH" + 1 ∧
        st'.printed.getLast? = some ("✅ 通話記錄已保存: " ++ "L")) :=
  ⟨(monitor_exit_hangup_report stW8 ⟨[], ["4", "OK"]⟩ "L" "T" rfl).1 3,
   (monitor_exit_hangup_report stW8 ⟨[], ["4", "OK"]⟩ "L" "T" rfl).2 1⟩

/-! ### Claim C9 -/

/-- C9: on a connected session `hangup` never errors whatever the current
flag value, clears the active-call flag unconditionally, returns whether the
response contained `"OK"`, and a second immediate invocation from the now
idle state behaves the same — the flag stays `false`. -/
theorem hangup_idempotent (st : SimState) (ch : Chan) (hser : st.ser = some ch) :
    ∃ st1 st2,
      hangup st = Except.ok (strContains (pyStrip (ch.sends.headD "")) "OK", st1) ∧
      st1.call_active = false ∧
      hangup st1 = Except.ok (strContains (pyStrip (ch.sends.tail.headD "")) "OK", st2) ∧
      st2.call_active = false := by
  obtain ⟨ser, ca, fs, pr, sn⟩ := st
  obtain ⟨rd, sd⟩ := ch
  obtain rfl : ser = some ⟨rd, sd⟩ := hser
  exact ⟨_, _, hangup_connected rd sd ca fs pr sn, rfl,
    hangup_connected rd sd.tail false fs (pr ++ ["📴 正在結束通話..."]) (sn ++ ["ATH"]), rfl⟩

def stW9 : SimState := ⟨some ⟨[], ["OK", "OK"]⟩, false, [], [], []⟩

theorem hangup_idempotent_witness :
    ∃ st1 st2,
      hangup stW9 = Except.ok
        (strContains (pyStrip ((Chan.mk [] ["OK", "OK"]).sends.headD "")) "OK", st1) ∧
      st1.call_active = false ∧
      hangup st1 = Except.ok
        (strContains (pyStrip ((Chan.mk [] ["OK", "OK"]).sends.tail.headD "")) "OK", st2) ∧
      st2.call_active = false :=
  hangup_idempotent stW9 ⟨[], ["OK", "OK"]⟩ rfl

/-! ### Claim C10 -/

/-- Every directory entry processed by the listing loop contributes exactly
one `📄`-marked name line to the output. -/
theorem listLoop_count (l : List DirEntry) (out : List String)
    (h : listLoop l = Except.ok out) :
    out.countP (fun s => hasPre "📄 ".data s.data) = l.length := by
  induction l generalizing out with
  | nil =>
      simp [listLoop] at h
      subst h
      simp
  | cons e rest ih =>
      rw [listLoop] at h
      cases he : e.lines with
      | nil =>
          rw [he] at h
          cases hr : listLoop rest with
          | error err =>
              rw [hr] at h
              exact absurd h (by simp [Except.map])
          | ok o =>
              rw [hr] at h
              simp only [Except.map] at h
              cases h
              have hm : hasPre ['📄', ' '] ('📄' :: ' ' :: e.name.data) = true := rfl
              simp [List.countP_cons, hm, ih o hr]
      | cons l0 tl =>
          cases tl with
          | nil =>
              rw [he] at h
              exact absurd h (by simp)
          | cons l1 tl' =>
              rw [he] at h
              cases hr : listLoop rest with
              | error err =>
                  rw [hr] at h
                  exact absurd h (by simp [Except.map])
              | ok o =>
                  rw [hr] at h
                  simp only [Except.map] at h
                  cases h
                  have hm : hasPre ['📄', ' '] ('📄' :: ' ' :: e.name.data) = true := rfl
                  have hs : ∀ y : String,
                      hasPre ['📄', ' '] (' ' :: ' ' :: ' ' :: y.data) = false := fun _ => rfl
                  simp [List.countP_cons, hm, hs, ih o hr]

/-- If any processed entry has exactly one line, the listing loop raises
`IndexError`. -/
theorem listLoop_err (l : List DirEntry) (e : DirEntry) (x : String)
    (hm : e ∈ l) (hx : e.lines = [x]) :
    listLoop l = Except.error PyErr.indexError := by
  induction l with
  | nil => cases hm
  | cons a rest ih =>
      rcases List.mem_cons.mp hm with rfl | hmem
      · rw [listLoop, hx]
      · rw [listLoop]
        cases ha : a.lines with
        | nil => rw [ih hmem]; rfl
        | cons l0 tl =>
            cases tl with
            | nil => rfl
            | cons l1 tl' => rw [ih hmem]; rfl

/-- C10 amended: the listing prints at most 10 artifact entries, and it
raises an uncaught `IndexError` exactly on the over-narrow assumption the
claim points at — whenever a non-empty artifact with exactly one line is
among the (at most) 10 most recently modified `.txt` files actually read; a
one-line artifact older than the 10 most recent is never read and raises
nothing. -/
theorem list_call_logs_bounds :
    (∀ dir, listedCount (list_call_logs dir) ≤ 10) ∧
    (∀ dir e x,
        e ∈ (sortDesc (dir.filter (fun d => hasSuf ".txt".data d.name.data))).take 10 →
        e.lines = [x] → list_call_logs dir = Except.error PyErr.indexError) := by
  constructor
  · intro dir
    unfold list_call_logs listedCount
    by_cases hnil : sortDesc (dir.filter (fun d => hasSuf ".txt".data d.name.data)) = []
    · rw [if_pos hnil]
      decide
    · rw [if_neg hnil]
      cases hll : listLoop
          ((sortDesc (dir.filter (fun d => hasSuf ".txt".data d.name.data))).take 10) with
      | error err => simp [Except.map]
      | ok out =>
          have hc := listLoop_count _ _ hll
          show List.countP (fun s => hasPre "📄 ".data s.data)
            ("=== 通話記錄 ===" :: out) ≤ 10
          rw [List.countP_cons, hc]
          have h0 : hasPre "📄 ".data ("=== 通話記錄 ===" : String).data = false := rfl
          rw [h0]
          simp [List.length_take_le 10
            (sortDesc (dir.filter (fun d => hasSuf ".txt".data d.name.data)))]
  · intro dir e x hmem hx
    unfold list_call_logs
    have hnil : ¬sortDesc (dir.filter (fun d => hasSuf ".txt".data d.name.data)) = [] := by
      intro h0
      rw [h0] at hmem
      simp at hmem
    rw [if_neg hnil, listLoop_err _ e x hmem hx]
    rfl

/-- Directory with 11 `.txt` artifacts whose one-line artifact is the oldest:
the listing reads only the 10 most recent and completes without raising. -/
def dirC10 : List DirEntry :=
  [⟨"f01.txt", 11, ["a", "b"]⟩, ⟨"f02.txt", 10, ["a", "b"]⟩,
   ⟨"f03.txt", 9, ["a", "b"]⟩, ⟨"f04.txt", 8, ["a", "b"]⟩,
   ⟨"f05.txt", 7, ["a", "b"]⟩, ⟨"f06.txt", 6, ["a", "b"]⟩,
   ⟨"f07.txt", 5, ["a", "b"]⟩, ⟨"f08.txt", 4, ["a", "b"]⟩,
   ⟨"f09.txt", 3, ["a", "b"]⟩, ⟨"f10.txt", 2, ["a", "b"]⟩,
   ⟨"old.txt", 1, ["only"]⟩]

/-- C10 counterexample: this directory does contain a non-empty log artifact
with exactly one line, yet listing completes without any indexing error,
because that artifact is not among the 10 most recently modified. -/
theorem list_logs_one_line_counterexample :
    (⟨"old.txt", 1, ["only"]⟩ : DirEntry) ∈ dirC10 ∧
      exceptOk (list_call_logs dirC10) = true :=
  ⟨by decide, rfl⟩

/-- Directory with 15 two-line `.txt` artifacts. -/
def dirW10 : List DirEntry :=
  [⟨"g01.txt", 15, ["a", "b"]⟩, ⟨"g02.txt", 14, ["a", "b"]⟩,
   ⟨"g03.txt", 13, ["a", "b"]⟩, ⟨"g04.txt", 12, ["a", "b"]⟩,
   ⟨"g05.txt", 11, ["a", "b"]⟩, ⟨"g06.txt", 10, ["a", "b"]⟩,
   ⟨"g07.txt", 9, ["a", "b"]⟩, ⟨"g08.txt", 8, ["a", "b"]⟩,
   ⟨"g09.txt", 7, ["a", "b"]⟩, ⟨"g10.txt", 6, ["a", "b"]⟩,
   ⟨"g11.txt", 5, ["a", "b"]⟩, ⟨"g12.txt", 4, ["a", "b"]⟩,
   ⟨"g13.txt", 3, ["a", "b"]⟩, ⟨"g14.txt", 2, ["a", "b"]⟩,
   ⟨"g15.txt", 1, ["a", "b"]⟩]

/-- Two-artifact directory whose one-line artifact is among the 10 most
recent. -/
def dirBad10 : List DirEntry :=
  [⟨"a.txt", 2, ["x", "y"]⟩, ⟨"b.txt", 1, ["only"]⟩]

theorem list_call_logs_bounds_witness :
    listedCount (list_call_logs dirW10) ≤ 10 ∧
      list_call_logs dirBad10 = Except.error PyErr.indexError :=
  ⟨list_call_logs_bounds.1 dirW10,
   list_call_logs_bounds.2 dirBad10 ⟨"b.txt", 1, ["only"]⟩ "only" (by decide) rfl⟩

end SIM7600
